import Mathlib

/-!
Shallow embedding of the deno-proxy repository (src/openwebui.ts and
src/deepsearch.ts): a single-hop HTTP/WebSocket reverse proxy.

Headers are modelled as association lists `List (String × String)` with
case-insensitive key lookup, mirroring the JS `Headers` class operations
used by the source (`get`, `set`, `delete`, `has`).  URLs are modelled as
records of the components the source reads and writes (`protocol`,
`hostname`, `port`, `pathname`, `search`).
-/

namespace DenoProxy

/-- ASCII lower-casing of one character code.  Header names are ASCII and
the JS `Headers` class normalizes them by ASCII lower-casing. -/
def lowerCode (n : Nat) : Nat := if 65 <= n && n <= 90 then n + 32 else n

/-- The ASCII-lower-cased character codes of a header name. -/
def keyCodes (s : String) : List Nat := s.data.map (fun c => lowerCode c.toNat)

/-- Case-insensitive header-name comparison, as the JS `Headers` class
performs on every operation. -/
def keyEq (a b : String) : Bool := keyCodes a == keyCodes b

/-- JS `s.slice(0, -1)`: the string without its final character (used by
the source to strip the trailing colon off `url.protocol`). -/
def stripLast (s : String) : String := String.mk s.data.dropLast

/-- The header multimap: ordered list of (name, value) pairs. -/
abbrev HList := List (String × String)

/-- JS `headers.get(name)`: value of the first header whose name matches
case-insensitively, `none` when absent. -/
def hGet (h : HList) (name : String) : Option String :=
  (h.find? (fun p => keyEq p.1 name)).map Prod.snd

/-- JS `headers.has(name)`. -/
def hHas (h : HList) (name : String) : Bool :=
  (h.find? (fun p => keyEq p.1 name)).isSome

/-- JS `headers.delete(name)`: removes every pair whose name matches
case-insensitively. -/
def hDelete (h : HList) (name : String) : HList :=
  h.filter (fun p => !(keyEq p.1 name))

/-- JS `headers.set(name, value)`: overwrite the first matching pair in place,
drop any later pairs with the same name, or append when absent. -/
def hSet : HList → String → String → HList
  | [], name, value => [(name, value)]
  | (k, v) :: rest, name, value =>
    if keyEq k name then (k, value) :: hDelete rest name
    else (k, v) :: hSet rest name value

/-- Number of pairs whose name matches `name` case-insensitively. -/
def countKey (h : HList) (name : String) : Nat :=
  h.countP (fun p => keyEq p.1 name)

/-- URL components the source reads and writes (JS `URL` object).
`protocol` keeps the trailing colon, as in JS (`"https:"`); `port` is the
empty string when the URL carries no explicit port. -/
structure Url where
  protocol : String
  hostname : String
  port : String
  pathname : String
  search : String
deriving Repr, DecidableEq

/-- JS `url.host`: hostname, plus `":" ++ port` when a port is present. -/
def Url.host (u : Url) : String :=
  if u.port = "" then u.hostname else u.hostname ++ ":" ++ u.port

/-- JS `url.origin`: `protocol + "//" + host`. -/
def Url.origin (u : Url) : String := u.protocol ++ "//" ++ u.host

/-- The desktop and mobile User-Agent strings synthesized by
`createProxyHeaders` in src/openwebui.ts. -/
def mobileUA : String :=
  "Mozilla/5.0 (Linux; Android 10; K) AppleWebKit/537.36 (KHTML, like Gecko) Chrome/124.0.0.0 Mobile Safari/537.36"

def desktopUA : String :=
  "Mozilla/5.0 (Windows NT 10.0; Win64; x64) AppleWebKit/537.36 (KHTML, like Gecko) Chrome/124.0.0.0 Safari/537.36"

/-- Function `createProxyHeaders(originalHeaders, targetUrl, remoteAddr)` from
src/openwebui.ts lines 25-47: copy the inbound headers, force `Host` and
`Origin` to the target's authority, inject `X-Forwarded-For` from the
caller's address and `X-Forwarded-Proto` from `targetUrl.protocol` with the
trailing colon stripped (`slice(0, -1)`), and synthesize a `User-Agent` when none is
present (mobile variant when `sec-ch-ua-mobile` is `?1`). -/
def createProxyHeaders (originalHeaders : HList) (targetUrl : Url)
    (remoteAddrHostname : String) : HList :=
  let newHeaders := originalHeaders
  let newHeaders := hSet newHeaders "Host" targetUrl.host
  let newHeaders := hSet newHeaders "Origin" targetUrl.origin
  let newHeaders := hSet newHeaders "X-Forwarded-For" remoteAddrHostname
  let newHeaders := hSet newHeaders "X-Forwarded-Proto" (stripLast targetUrl.protocol)
  if hHas newHeaders "User-Agent" then newHeaders
  else
    let isMobile := hGet newHeaders "sec-ch-ua-mobile" == some "?1"
    hSet newHeaders "User-Agent" (if isMobile then mobileUA else desktopUA)

/-- An inbound request as the transport layer hands it to the handler:
method, parsed URL (`new URL(req.url)`), header list, optional body. -/
structure InboundRequest where
  method : String
  url : Url
  headers : HList
  body : Option String
deriving Repr, DecidableEq

/-- The router's WebSocket test in src/openwebui.ts line 175:
`req.headers.get("upgrade")?.toLowerCase() === "websocket"`. -/
def isWebSocketUpgrade (headers : HList) : Bool :=
  (hGet headers "upgrade").map String.toLower == some "websocket"

/-- Upstream-URL construction of `requestHandler` (src/openwebui.ts lines
166-181): clone the target URL, overwrite `pathname` and `search` from the
inbound URL, and for WebSocket upgrades map the protocol
`https: → wss:`, anything else `→ ws:`.  Returns the URL together with the
WebSocket classification. -/
def buildTargetUrl (target : Url) (req : InboundRequest) : Url × Bool :=
  let url := req.url
  let targetUrl := { target with pathname := url.pathname, search := url.search }
  if isWebSocketUpgrade req.headers then
    ({ targetUrl with
        protocol := if target.protocol = "https:" then "wss:" else "ws:" }, true)
  else (targetUrl, false)

/-- A response received from the upstream by `fetch`. -/
structure UpstreamResponse where
  status : Nat
  statusText : String
  headers : HList
  body : Option String
deriving Repr, DecidableEq

/-- Outcome of one upstream `fetch` call: a response, or a thrown network
error carrying `error.message`. -/
inductive FetchResult where
  | ok : UpstreamResponse → FetchResult
  | err : String → FetchResult
deriving Repr, DecidableEq

/-- The response the relay hands back to the original caller. -/
structure ProxyResponse where
  status : Nat
  statusText : String
  headers : HList
  body : Option String
deriving Repr, DecidableEq

/-- Function `handleHttp` (src/openwebui.ts lines 55-92), given the outcome of its
single upstream `fetch`: on success, copy the upstream headers, reflect a
truthy inbound `Origin` as `Access-Control-Allow-Origin` plus `Vary:
Origin` (else `Access-Control-Allow-Origin: *`), always set
`Access-Control-Allow-Credentials: true`, delete `Content-Encoding`, and
pass status/statusText/body through; on a thrown fetch error, return a 502
with body `"Proxy Error: " + error.message`.  The JS guard
`if (requestOrigin)` is falsy for both a missing and an empty `Origin`
value. -/
def handleHttp (req : InboundRequest) (result : FetchResult) : ProxyResponse :=
  match result with
  | .ok response =>
    let responseHeaders := response.headers
    let requestOrigin := hGet req.headers "Origin"
    let responseHeaders :=
      match requestOrigin with
      | some o =>
        if o = "" then hSet responseHeaders "Access-Control-Allow-Origin" "*"
        else hSet (hSet responseHeaders "Access-Control-Allow-Origin" o) "Vary" "Origin"
      | none => hSet responseHeaders "Access-Control-Allow-Origin" "*"
    let responseHeaders := hSet responseHeaders "Access-Control-Allow-Credentials" "true"
    let responseHeaders := hDelete responseHeaders "Content-Encoding"
    { status := response.status, statusText := response.statusText
      headers := responseHeaders, body := response.body }
  | .err msg =>
    { status := 502, statusText := "", headers := [], body := some ("Proxy Error: " ++ msg) }

/-- The fixed target of src/deepsearch.ts line 3:
`new URL("https://deep-research.a792494425.buzz")`. -/
def deepsearchTarget : Url :=
  { protocol := "https:", hostname := "deep-research.a792494425.buzz"
    port := "", pathname := "/", search := "" }

/-- Upstream-URL construction of the deepsearch `handler` (src/deepsearch.ts
lines 5-11): clone the fixed target and overwrite `pathname` and `search`
from the inbound URL. -/
def deepsearchTargetUrl (req : InboundRequest) : Url :=
  { deepsearchTarget with pathname := req.url.pathname, search := req.url.search }

/-- The deepsearch `handler` (src/deepsearch.ts lines 5-44), given the
outcome of its single upstream `fetch`: copy the upstream response
unchanged (status, statusText, headers, body); on a thrown fetch error,
return a 502 with the fixed body `"代理服务器出错"`. -/
def deepsearchHandler (req : InboundRequest) (result : FetchResult) : ProxyResponse :=
  match result with
  | .ok response =>
    { status := response.status, statusText := response.statusText
      headers := response.headers, body := response.body }
  | .err _ =>
    { status := 502, statusText := "", headers := [], body := some "代理服务器出错" }

/-- Redirect statuses the `fetch` algorithm follows in `follow` mode. -/
def redirectStatus (s : Nat) : Bool :=
  s == 301 || s == 302 || s == 303 || s == 307 || s == 308

/-- The `redirect` option both sources pass to `fetch` (`"manual"`). -/
inductive RedirectMode where
  | manual
  | follow
deriving Repr, DecidableEq

/-- The runtime's `fetch` against an upstream modelled as the list of
responses it would give to successive requests.  Returns the response
delivered to the caller of `fetch` and the number of upstream requests
issued.  In `manual` mode the first response is returned as-is after one
request; in `follow` mode redirect responses carrying a `Location` trigger
a further request (up to the fuel bound). -/
def fetchSteps : List UpstreamResponse → RedirectMode → Nat → Option UpstreamResponse × Nat
  | [], _, _ => (none, 1)
  | r :: _, .manual, _ => (some r, 1)
  | r :: _, .follow, 0 => (some r, 1)
  | r :: rest, .follow, fuel + 1 =>
    if redirectStatus r.status && (hGet r.headers "Location").isSome then
      let (res, n) := fetchSteps rest .follow fuel
      (res, n + 1)
    else (some r, 1)

/-- Function `handleHttp` run against the modelled network: its single `fetch` uses
`redirect: "manual"`; an exhausted network stands for a thrown network
error.  Returns the caller-visible response and the number of upstream
requests issued. -/
def handleHttpNet (req : InboundRequest) (net : List UpstreamResponse) :
    ProxyResponse × Nat :=
  match fetchSteps net .manual 20 with
  | (some r, n) => (handleHttp req (.ok r), n)
  | (none, n) => (handleHttp req (.err "connection error"), n)

/-- The deepsearch handler run against the modelled network, `redirect:
"manual"` likewise. -/
def deepsearchHandlerNet (req : InboundRequest) (net : List UpstreamResponse) :
    ProxyResponse × Nat :=
  match fetchSteps net .manual 20 with
  | (some r, n) => (deepsearchHandler req (.ok r), n)
  | (none, n) => (deepsearchHandler req (.err "connection error"), n)

/-- The JS `WebSocket.readyState` values. -/
inductive ReadyState where
  | connecting
  | opened
  | closing
  | closed
deriving Repr, DecidableEq

/-- A WebSocket message, preserving text/binary framing. -/
inductive WsMessage where
  | text : String → WsMessage
  | binary : List Nat → WsMessage
deriving Repr, DecidableEq

/-- One end of the relay: its ready state, the close frame the relay sent
on it via `close(code, reason)` (if any), and the messages the relay sent
on it via `send`, in order. -/
structure WS where
  readyState : ReadyState
  sentClose : Option (Nat × String)
  sent : List WsMessage
deriving Repr, DecidableEq

/-- Method `socket.close(code, reason)` as invoked by the relay: the socket
enters the CLOSING state carrying the given close frame.  (The relay only
calls it on sockets it observed in the OPEN state.) -/
def wsClose (s : WS) (code : Nat) (reason : String) : WS :=
  { s with readyState := .closing, sentClose := some (code, reason) }

/-- The `forward` closure (src/openwebui.ts lines 124-130): on a message
event, `if (to.readyState === WebSocket.OPEN) to.send(event.data)` —
forward the event's data verbatim when the destination is open, do nothing
otherwise. -/
def sendTo (dest : WS) (msg : WsMessage) : WS :=
  if dest.readyState = .opened then { dest with sent := dest.sent ++ [msg] } else dest

/-- Which socket of the RelayPair an event fired on. -/
inductive Side where
  | client
  | server
deriving Repr, DecidableEq

/-- The side name interpolated into log lines and error reasons. -/
def sideName : Side → String
  | .client => "client"
  | .server => "server"

/-- The RelayPair: the client socket and the upstream (server) socket. -/
structure RelayPair where
  client : WS
  server : WS
deriving Repr, DecidableEq

def RelayPair.get (p : RelayPair) : Side → WS
  | .client => p.client
  | .server => p.server

def Side.other : Side → Side
  | .client => .server
  | .server => .client

/-- Function `closeHandler` (src/openwebui.ts lines 135-139): close the client
socket with the event's code and reason if it is OPEN, and likewise the
server socket. -/
def closeHandler (p : RelayPair) (code : Nat) (reason : String) : RelayPair :=
  let client := if p.client.readyState = .opened then wsClose p.client code reason else p.client
  let server := if p.server.readyState = .opened then wsClose p.server code reason else p.server
  { client := client, server := server }

/-- A close event firing on one side (src/openwebui.ts lines 147-148):
`socket.onclose = (e) => closeHandler(e, side)` — the handler receives the
event's code and reason. -/
def onCloseEvent (p : RelayPair) (_side : Side) (code : Nat) (reason : String) : RelayPair :=
  closeHandler p code reason

/-- Function `errorHandler` (src/openwebui.ts lines 141-145): an error event on
either side is turned into `closeHandler({ code: 1011, reason: side +
" error" })`. -/
def errorHandler (p : RelayPair) (side : Side) : RelayPair :=
  closeHandler p 1011 (sideName side ++ " error")

/-- A message event on one side of the pair: the `forward` wiring
(src/openwebui.ts lines 132-133) sends it to the opposite socket when that
socket is open. -/
def onMessageEvent (p : RelayPair) (side : Side) (msg : WsMessage) : RelayPair :=
  match side with
  | .client => { p with server := sendTo p.server msg }
  | .server => { p with client := sendTo p.client msg }

/-- Outcome of the upstream handshake `fetch` in `handleWebSocket`: a
thrown network error, or a response whose `webSocket` field is either
present or absent (absent = upstream did not upgrade). -/
inductive WsFetchOutcome where
  | fetchError : String → WsFetchOutcome
  | response : Bool → WsFetchOutcome
deriving Repr, DecidableEq

/-- What `handleWebSocket` returns to the transport layer: either the
prepared 101 upgrade response from `Deno.upgradeWebSocket` (relaying is
wired up), or an ordinary error response; `clientClose` records the
`close(code, reason)` call made on the already-upgraded client socket, if
any. -/
inductive HandshakeResult where
  | upgradeResponse : HandshakeResult
  | errorResponse : Nat → String → Option (Nat × String) → HandshakeResult
deriving Repr, DecidableEq

/-- The close call on the client socket recorded in a `HandshakeResult`. -/
def HandshakeResult.clientClose : HandshakeResult → Option (Nat × String)
  | .upgradeResponse => none
  | .errorResponse _ _ c => c

/-- The status of the response returned to the transport layer (the
prepared upgrade response carries status 101). -/
def HandshakeResult.status : HandshakeResult → Nat
  | .upgradeResponse => 101
  | .errorResponse s _ _ => s

/-- Function `handleWebSocket` (src/openwebui.ts lines 100-160) after the client
upgrade, keyed on the upstream handshake outcome: a response carrying a
`webSocket` wires the relay and returns the upgrade response; a response
without one returns a 502 and leaves the client socket untouched; a thrown
fetch error closes the client socket with `close(1011, "Upstream
connection error")` and returns a 502. -/
def handleWebSocketOutcome (outcome : WsFetchOutcome) : HandshakeResult :=
  match outcome with
  | .response true => .upgradeResponse
  | .response false =>
    .errorResponse 502 "WebSocket handshake failed with target server." none
  | .fetchError msg =>
    .errorResponse 502 ("WebSocket Proxy Error: " ++ msg)
      (some (1011, "Upstream connection error"))

/-! ### Header-algebra lemmas -/

theorem keyEq_true_iff {a b : String} : keyEq a b = true ↔ keyCodes a = keyCodes b := by
  simp [keyEq]

theorem keyEq_false_iff {a b : String} : keyEq a b = false ↔ keyCodes a ≠ keyCodes b := by
  simp [keyEq]

theorem keyEq_refl (a : String) : keyEq a a = true := by
  simp [keyEq]

theorem countKey_nil (n : String) : countKey [] n = 0 := rfl

theorem countKey_cons (k v n : String) (t : HList) :
    countKey ((k, v) :: t) n = (if keyEq k n then 1 else 0) + countKey t n := by
  by_cases hk : keyEq k n <;>
    simp [countKey, List.countP_cons, hk, Nat.add_comm]

theorem hDelete_eq_self {h : HList} {n : String} (hc : countKey h n = 0) :
    hDelete h n = h := by
  unfold hDelete
  rw [List.filter_eq_self]
  intro p hp
  have h0 := List.countP_eq_zero.mp hc p hp
  simp only [Bool.not_eq_true] at h0
  simp [h0]

theorem hGet_hSet_self (h : HList) (n v : String) : hGet (hSet h n v) n = some v := by
  induction h with
  | nil => simp [hSet, hGet, List.find?, keyEq_refl]
  | cons p t ih =>
    obtain ⟨k, w⟩ := p
    by_cases hk : keyEq k n
    · simp [hSet, hk, hGet, List.find?_cons_of_pos, hk]
    · simp only [hSet, hk, if_false]
      simpa [hGet, List.find?_cons_of_neg, hk] using ih

theorem countKey_hDelete (h : HList) (n : String) : countKey (hDelete h n) n = 0 := by
  induction h with
  | nil => rfl
  | cons p t ih =>
    obtain ⟨k, w⟩ := p
    by_cases hk : keyEq k n
    · simpa [hDelete, List.filter_cons, hk] using ih
    · have := ih
      simp only [hDelete, List.filter_cons, hk] at this ⊢
      simpa [countKey_cons, hk] using this

theorem countKey_hSet_self (h : HList) (n v : String) : countKey (hSet h n v) n = 1 := by
  induction h with
  | nil => simp [hSet, countKey, List.countP_cons, keyEq_refl]
  | cons p t ih =>
    obtain ⟨k, w⟩ := p
    by_cases hk : keyEq k n
    · have hd := countKey_hDelete t n
      simp [hSet, hk, countKey_cons, hd]
    · simp [hSet, hk, countKey_cons, ih]

theorem hGet_cons_pos {k w m : String} {t : HList} (hm : keyEq k m = true) :
    hGet ((k, w) :: t) m = some w := by
  simp [hGet, List.find?_cons_of_pos, hm]

theorem hGet_cons_neg {k w m : String} {t : HList} (hm : keyEq k m = false) :
    hGet ((k, w) :: t) m = hGet t m := by
  simp [hGet, List.find?_cons_of_neg, hm]

theorem hGet_hDelete_ne {n m : String} (hne : keyCodes n ≠ keyCodes m) (h : HList) :
    hGet (hDelete h n) m = hGet h m := by
  induction h with
  | nil => rfl
  | cons p t ih =>
    obtain ⟨k, w⟩ := p
    by_cases hk : keyEq k n
    · have hkm : keyEq k m = false := by
        rw [keyEq_false_iff, keyEq_true_iff.mp hk]; exact hne
      simp only [hDelete, List.filter_cons, hk, Bool.not_true, if_false]
      rw [hGet_cons_neg hkm]
      simpa [hDelete] using ih
    · simp only [hDelete, List.filter_cons, hk, Bool.not_false, if_true]
      by_cases hm : keyEq k m
      · rw [hGet_cons_pos hm, hGet_cons_pos hm]
      · rw [hGet_cons_neg (by simpa using hm), hGet_cons_neg (by simpa using hm)]
        simpa [hDelete] using ih

theorem hGet_hSet_ne {n m : String} (hne : keyCodes n ≠ keyCodes m) (h : HList)
    (v : String) : hGet (hSet h n v) m = hGet h m := by
  induction h with
  | nil =>
    have hnm : keyEq n m = false := keyEq_false_iff.mpr hne
    simp [hSet, hGet, List.find?, hnm]
  | cons p t ih =>
    obtain ⟨k, w⟩ := p
    by_cases hk : keyEq k n
    · have hkm : keyEq k m = false := by
        rw [keyEq_false_iff, keyEq_true_iff.mp hk]; exact hne
      simp only [hSet, hk, if_true]
      rw [hGet_cons_neg hkm, hGet_cons_neg hkm]
      exact hGet_hDelete_ne hne t
    · by_cases hm : keyEq k m
      · simp [hSet, hk, hGet_cons_pos hm]
      · simp [hSet, hk, hGet_cons_neg (show keyEq k m = false by simpa using hm), ih]

theorem countKey_hDelete_ne {n m : String} (hne : keyCodes n ≠ keyCodes m) (h : HList) :
    countKey (hDelete h n) m = countKey h m := by
  induction h with
  | nil => rfl
  | cons p t ih =>
    obtain ⟨k, w⟩ := p
    by_cases hk : keyEq k n
    · have hkm : keyEq k m = false := by
        rw [keyEq_false_iff, keyEq_true_iff.mp hk]; exact hne
      simp only [hDelete, List.filter_cons, hk, Bool.not_true, if_false]
      rw [countKey_cons, hkm]
      simpa [hDelete] using ih
    · simp only [hDelete, List.filter_cons, hk, Bool.not_false, if_true]
      rw [countKey_cons, countKey_cons]
      have h2 : countKey (List.filter (fun p => !keyEq p.1 n) t) m = countKey t m := by
        simpa [hDelete] using ih
      rw [h2]

theorem countKey_hSet_ne {n m : String} (hne : keyCodes n ≠ keyCodes m) (h : HList)
    (v : String) : countKey (hSet h n v) m = countKey h m := by
  induction h with
  | nil =>
    have hnm : keyEq n m = false := keyEq_false_iff.mpr hne
    simp [hSet, countKey, List.countP_cons, hnm]
  | cons p t ih =>
    obtain ⟨k, w⟩ := p
    by_cases hk : keyEq k n
    · have hkm : keyEq k m = false := by
        rw [keyEq_false_iff, keyEq_true_iff.mp hk]; exact hne
      simp [hSet, hk, countKey_cons, hkm, countKey_hDelete_ne hne]
    · simp [hSet, hk, countKey_cons, ih]

theorem hSet_eq_self {h : HList} {n v : String} (hc : countKey h n ≤ 1)
    (hg : hGet h n = some v) : hSet h n v = h := by
  induction h with
  | nil => simp [hGet] at hg
  | cons p t ih =>
    obtain ⟨k, w⟩ := p
    by_cases hk : keyEq k n
    · have hw : w = v := by
        have h1 : hGet ((k, w) :: t) n = some w := hGet_cons_pos hk
        rw [h1] at hg; exact Option.some.inj hg
      have ht : countKey t n = 0 := by
        rw [countKey_cons, hk] at hc; simpa using hc
      simp [hSet, hk, hDelete_eq_self ht, hw]
    · have hc' : countKey t n ≤ 1 := by
        rw [countKey_cons] at hc
        simp only [hk, if_false] at hc
        simpa using hc
      have hg' : hGet t n = some v := by
        rw [hGet_cons_neg (by simpa using hk)] at hg; exact hg
      simp [hSet, hk, ih hc' hg']

theorem hHas_eq_isSome (h : HList) (n : String) : hHas h n = (hGet h n).isSome := by
  simp [hHas, hGet]

/-! ### Facts about `createProxyHeaders` -/

/-- The first four forced headers of `createProxyHeaders`, before the
User-Agent fallback. -/
def coreHeaders (h : HList) (t : Url) (a : String) : HList :=
  hSet (hSet (hSet (hSet h "Host" t.host) "Origin" t.origin) "X-Forwarded-For" a)
    "X-Forwarded-Proto" (stripLast t.protocol)

theorem createProxyHeaders_eq (h : HList) (t : Url) (a : String) :
    createProxyHeaders h t a =
      if hHas (coreHeaders h t a) "User-Agent" then coreHeaders h t a
      else
        hSet (coreHeaders h t a) "User-Agent"
          (if hGet (coreHeaders h t a) "sec-ch-ua-mobile" == some "?1" then mobileUA
           else desktopUA) := rfl

theorem coreHeaders_get_host (h : HList) (t : Url) (a : String) :
    hGet (coreHeaders h t a) "Host" = some t.host := by
  unfold coreHeaders
  rw [hGet_hSet_ne (by decide), hGet_hSet_ne (by decide), hGet_hSet_ne (by decide),
    hGet_hSet_self]

theorem coreHeaders_get_origin (h : HList) (t : Url) (a : String) :
    hGet (coreHeaders h t a) "Origin" = some t.origin := by
  unfold coreHeaders
  rw [hGet_hSet_ne (by decide), hGet_hSet_ne (by decide), hGet_hSet_self]

theorem coreHeaders_get_xff (h : HList) (t : Url) (a : String) :
    hGet (coreHeaders h t a) "X-Forwarded-For" = some a := by
  unfold coreHeaders
  rw [hGet_hSet_ne (by decide), hGet_hSet_self]

theorem coreHeaders_get_xfp (h : HList) (t : Url) (a : String) :
    hGet (coreHeaders h t a) "X-Forwarded-Proto" = some (stripLast t.protocol) := by
  unfold coreHeaders
  rw [hGet_hSet_self]

theorem coreHeaders_count_host (h : HList) (t : Url) (a : String) :
    countKey (coreHeaders h t a) "Host" = 1 := by
  unfold coreHeaders
  rw [countKey_hSet_ne (by decide), countKey_hSet_ne (by decide),
    countKey_hSet_ne (by decide), countKey_hSet_self]

theorem coreHeaders_count_origin (h : HList) (t : Url) (a : String) :
    countKey (coreHeaders h t a) "Origin" = 1 := by
  unfold coreHeaders
  rw [countKey_hSet_ne (by decide), countKey_hSet_ne (by decide), countKey_hSet_self]

theorem coreHeaders_count_xff (h : HList) (t : Url) (a : String) :
    countKey (coreHeaders h t a) "X-Forwarded-For" = 1 := by
  unfold coreHeaders
  rw [countKey_hSet_ne (by decide), countKey_hSet_self]

theorem coreHeaders_count_xfp (h : HList) (t : Url) (a : String) :
    countKey (coreHeaders h t a) "X-Forwarded-Proto" = 1 := by
  unfold coreHeaders
  rw [countKey_hSet_self]

/-- Headers other than `User-Agent` read the same through the User-Agent
fallback step. -/
theorem createProxyHeaders_get_ne_ua {m : String}
    (hm : keyCodes "User-Agent" ≠ keyCodes m) (h : HList) (t : Url)
    (a : String) : hGet (createProxyHeaders h t a) m = hGet (coreHeaders h t a) m := by
  rw [createProxyHeaders_eq]
  by_cases hUA : hHas (coreHeaders h t a) "User-Agent"
  · simp [hUA]
  · simp [hUA, hGet_hSet_ne hm]

theorem createProxyHeaders_count_ne_ua {m : String}
    (hm : keyCodes "User-Agent" ≠ keyCodes m) (h : HList) (t : Url)
    (a : String) :
    countKey (createProxyHeaders h t a) m = countKey (coreHeaders h t a) m := by
  rw [createProxyHeaders_eq]
  by_cases hUA : hHas (coreHeaders h t a) "User-Agent"
  · simp [hUA]
  · simp [hUA, countKey_hSet_ne hm]

theorem createProxyHeaders_has_ua (h : HList) (t : Url) (a : String) :
    hHas (createProxyHeaders h t a) "User-Agent" = true := by
  rw [createProxyHeaders_eq]
  by_cases hUA : hHas (coreHeaders h t a) "User-Agent"
  · simpa [hUA] using hUA
  · simp [hUA, hHas_eq_isSome, hGet_hSet_self]

/-- Response headers other than the four CORS/encoding names touched by
`handleHttp` read the same as in the upstream response. -/
theorem handleHttp_get_preserved (req : InboundRequest) (r : UpstreamResponse)
    {m : String}
    (h1 : keyCodes "Access-Control-Allow-Origin" ≠ keyCodes m)
    (h2 : keyCodes "Vary" ≠ keyCodes m)
    (h3 : keyCodes "Access-Control-Allow-Credentials" ≠ keyCodes m)
    (h4 : keyCodes "Content-Encoding" ≠ keyCodes m) :
    hGet (handleHttp req (.ok r)).headers m = hGet r.headers m := by
  unfold handleHttp
  cases ho : hGet req.headers "Origin" with
  | none =>
    simp [ho, hGet_hDelete_ne h4, hGet_hSet_ne h3, hGet_hSet_ne h1]
  | some o =>
    by_cases he : o = "" <;>
      simp [ho, he, hGet_hDelete_ne h4, hGet_hSet_ne h3, hGet_hSet_ne h2, hGet_hSet_ne h1]

/-! ### Claim theorems -/

/-- C1: for every inbound request, the upstream URL used for the forwarded
call has path and query equal to the inbound request's path and query, and
scheme, host and port taken from the configured target origin (for
WebSocket upgrades the scheme is the target scheme mapped
`https → wss` / otherwise `ws`), independent of the inbound request's own
scheme and authority.  Covers `requestHandler` in src/openwebui.ts and
`handler` in src/deepsearch.ts. -/
theorem claim_C1_upstream_url (target : Url) (req : InboundRequest) :
    (buildTargetUrl target req).1.pathname = req.url.pathname ∧
    (buildTargetUrl target req).1.search = req.url.search ∧
    (buildTargetUrl target req).1.hostname = target.hostname ∧
    (buildTargetUrl target req).1.port = target.port ∧
    (buildTargetUrl target req).1.protocol =
      (if isWebSocketUpgrade req.headers then
        (if target.protocol = "https:" then "wss:" else "ws:")
      else target.protocol) ∧
    (∀ (p q r : String),
      buildTargetUrl target
          { req with url := { req.url with protocol := p, hostname := q, port := r } } =
        buildTargetUrl target req) ∧
    (deepsearchTargetUrl req).pathname = req.url.pathname ∧
    (deepsearchTargetUrl req).search = req.url.search ∧
    (deepsearchTargetUrl req).protocol = deepsearchTarget.protocol ∧
    (deepsearchTargetUrl req).hostname = deepsearchTarget.hostname ∧
    (deepsearchTargetUrl req).port = deepsearchTarget.port ∧
    (∀ (p q r : String),
      deepsearchTargetUrl
          { req with url := { req.url with protocol := p, hostname := q, port := r } } =
        deepsearchTargetUrl req) := by
  by_cases hws : isWebSocketUpgrade req.headers <;>
    simp [buildTargetUrl, deepsearchTargetUrl, hws]

/-- C3 counterexample: a caller that connected over plain HTTP
(`req.url.protocol = "http:"`, which is how the plain-HTTP listener of
src/openwebui.ts receives every request) proxied to an `https:` target gets
`X-Forwarded-Proto: https` — the upstream target's scheme, not the scheme
the caller connected with. -/
theorem claim_C3_counterexample :
    (let req : InboundRequest :=
      { method := "GET"
        url := { protocol := "http:", hostname := "127.0.0.1", port := "8080"
                 pathname := "/chat", search := "" }
        headers := [("User-Agent", "curl/8.5.0")], body := none }
     let target : Url :=
      { protocol := "https:", hostname := "example.com", port := ""
        pathname := "/", search := "" }
     stripLast req.url.protocol = "http" ∧
     hGet
        (createProxyHeaders req.headers ((buildTargetUrl target req).1) "203.0.113.7")
        "X-Forwarded-Proto" = some "https") ∧
    ("https" : String) ≠ "http" := by
  constructor
  · constructor
    · decide
    · decide
  · decide

/-- C3 amended: the header rewrite function sets `X-Forwarded-For` to the
caller's network address, and sets `X-Forwarded-Proto` to the scheme of the
target URL it is given (the upstream's scheme, colon stripped), not to the
scheme the caller connected with, for every inbound header set. -/
theorem claim_C3_amended_forwarded_headers (h : HList) (t : Url) (a : String) :
    hGet (createProxyHeaders h t a) "X-Forwarded-For" = some a ∧
    hGet (createProxyHeaders h t a) "X-Forwarded-Proto" = some (stripLast t.protocol) := by
  constructor
  · rw [createProxyHeaders_get_ne_ua (by decide), coreHeaders_get_xff]
  · rw [createProxyHeaders_get_ne_ua (by decide), coreHeaders_get_xfp]

/-- C9: the header rewrite function is total (a Lean function, defined on
every header list), deterministic (equal inputs give equal outputs), and
idempotent: applying it to its own output with the same target origin and
caller address yields that output unchanged. -/
theorem claim_C9_rewrite_pure (h : HList) (t : Url) (a : String) :
    createProxyHeaders h t a = createProxyHeaders h t a ∧
    createProxyHeaders (createProxyHeaders h t a) t a = createProxyHeaders h t a := by
  refine ⟨rfl, ?_⟩
  have hHost : hGet (createProxyHeaders h t a) "Host" = some t.host := by
    rw [createProxyHeaders_get_ne_ua (by decide), coreHeaders_get_host]
  have cHost : countKey (createProxyHeaders h t a) "Host" ≤ 1 := by
    rw [createProxyHeaders_count_ne_ua (by decide), coreHeaders_count_host]
  have hOrig : hGet (createProxyHeaders h t a) "Origin" = some t.origin := by
    rw [createProxyHeaders_get_ne_ua (by decide), coreHeaders_get_origin]
  have cOrig : countKey (createProxyHeaders h t a) "Origin" ≤ 1 := by
    rw [createProxyHeaders_count_ne_ua (by decide), coreHeaders_count_origin]
  have hXff : hGet (createProxyHeaders h t a) "X-Forwarded-For" = some a := by
    rw [createProxyHeaders_get_ne_ua (by decide), coreHeaders_get_xff]
  have cXff : countKey (createProxyHeaders h t a) "X-Forwarded-For" ≤ 1 := by
    rw [createProxyHeaders_count_ne_ua (by decide), coreHeaders_count_xff]
  have hXfp : hGet (createProxyHeaders h t a) "X-Forwarded-Proto" =
      some (stripLast t.protocol) := by
    rw [createProxyHeaders_get_ne_ua (by decide), coreHeaders_get_xfp]
  have cXfp : countKey (createProxyHeaders h t a) "X-Forwarded-Proto" ≤ 1 := by
    rw [createProxyHeaders_count_ne_ua (by decide), coreHeaders_count_xfp]
  have hUA : hHas (createProxyHeaders h t a) "User-Agent" = true :=
    createProxyHeaders_has_ua h t a
  have hcore : coreHeaders (createProxyHeaders h t a) t a = createProxyHeaders h t a := by
    unfold coreHeaders
    rw [hSet_eq_self cHost hHost, hSet_eq_self cOrig hOrig, hSet_eq_self cXff hXff,
      hSet_eq_self cXfp hXfp]
  rw [createProxyHeaders_eq (createProxyHeaders h t a) t a, hcore, hUA]
  simp

/-- C2: whenever either socket of a RelayPair fires a close event with some
code and reason while the other socket is still open, the relay closes the
other socket with that same close code and reason; and an error event on
either side while the pair is relaying (both sockets open) is treated as a
close with fixed code 1011 and reason `"<side> error"` naming the failing
side, forcing closure of both sockets. -/
theorem claim_C2_close_propagation (p : RelayPair) (side : Side) (code : Nat)
    (reason : String) (hev : (p.get side).readyState ≠ .opened)
    (hother : (p.get side.other).readyState = .opened) :
    (((onCloseEvent p side code reason).get side.other).readyState = .closing ∧
      ((onCloseEvent p side code reason).get side.other).sentClose = some (code, reason)) ∧
    (∀ (q : RelayPair) (s : Side), q.client.readyState = .opened →
      q.server.readyState = .opened →
      (errorHandler q s).client.readyState = .closing ∧
      (errorHandler q s).client.sentClose = some (1011, sideName s ++ " error") ∧
      (errorHandler q s).server.readyState = .closing ∧
      (errorHandler q s).server.sentClose = some (1011, sideName s ++ " error")) := by
  constructor
  · cases side <;>
      simp_all [onCloseEvent, closeHandler, wsClose, RelayPair.get, Side.other]
  · intro q s hqc hqs
    simp [errorHandler, closeHandler, wsClose, hqc, hqs]

/-- C2 witness: a concrete pair whose client just closed with code 1000 and
reason `"done"` has its server socket closed by the relay with the same
code and reason, and a concrete relaying pair hit by a server-side error
has both sockets closed with code 1011 and reason `"server error"`. -/
theorem claim_C2_close_propagation_witness :
    (((onCloseEvent
          { client := { readyState := .closed, sentClose := none, sent := [] }
            server := { readyState := .opened, sentClose := none, sent := [] } }
          .client 1000 "done").get Side.client.other).readyState = .closing ∧
      ((onCloseEvent
          { client := { readyState := .closed, sentClose := none, sent := [] }
            server := { readyState := .opened, sentClose := none, sent := [] } }
          .client 1000 "done").get Side.client.other).sentClose = some (1000, "done")) ∧
    (errorHandler
        { client := { readyState := .opened, sentClose := none, sent := [] }
          server := { readyState := .opened, sentClose := none, sent := [] } }
        .server).client.sentClose = some (1011, "server error") := by
  have h := claim_C2_close_propagation
    { client := { readyState := .closed, sentClose := none, sent := [] }
      server := { readyState := .opened, sentClose := none, sent := [] } }
    .client 1000 "done" (by decide) (by decide)
  refine ⟨h.1, ?_⟩
  have h2 := h.2
    { client := { readyState := .opened, sentClose := none, sent := [] }
      server := { readyState := .opened, sentClose := none, sent := [] } }
    .server rfl rfl
  exact h2.2.1

/-- C5 counterexample: when the upstream's handshake response carries no
`webSocket` (the upstream refused the upgrade), `handleWebSocket` returns a
502 response and performs no `close` call at all on the client socket — it
does not close the already-upgraded client socket with an abnormal-closure
code. -/
theorem claim_C5_counterexample :
    handleWebSocketOutcome (.response false) =
      .errorResponse 502 "WebSocket handshake failed with target server." none ∧
    (handleWebSocketOutcome (.response false)).clientClose = none ∧
    (handleWebSocketOutcome (.response false)).status = 502 := by
  exact ⟨rfl, rfl, rfl⟩

/-- C5 amended: if the upstream refuses the WebSocket upgrade (returns a
non-upgrade response), the relay returns a 502 response to the transport
layer and leaves the client socket untouched (no close call); when the
upstream handshake fails at the network level (the `fetch` throws), the
client socket is closed with code 1011 (reason `"Upstream connection
error"`) and a 502 response is returned. -/
theorem claim_C5_amended_handshake_failure (msg : String) :
    (handleWebSocketOutcome (.response false)).status = 502 ∧
    (handleWebSocketOutcome (.response false)).clientClose = none ∧
    (handleWebSocketOutcome (.fetchError msg)).status = 502 ∧
    (handleWebSocketOutcome (.fetchError msg)).clientClose =
      some (1011, "Upstream connection error") := by
  exact ⟨rfl, rfl, rfl, rfl⟩

/-- C8: a message received on one socket of the RelayPair is forwarded
verbatim (the very same message, text/binary framing included) to the other
socket exactly when the destination socket is in the OPEN state; when the
destination is not open the message is silently dropped — the pair is left
completely unchanged, nothing is queued or retried, and the receiving
socket is never altered. -/
theorem claim_C8_forwarding (p : RelayPair) (side : Side) (msg : WsMessage) :
    ((onMessageEvent p side msg).get side = p.get side) ∧
    ((p.get side.other).readyState = .opened →
      ((onMessageEvent p side msg).get side.other).sent =
          (p.get side.other).sent ++ [msg] ∧
        ((onMessageEvent p side msg).get side.other).readyState =
          (p.get side.other).readyState ∧
        ((onMessageEvent p side msg).get side.other).sentClose =
          (p.get side.other).sentClose) ∧
    ((p.get side.other).readyState ≠ .opened → onMessageEvent p side msg = p) := by
  refine ⟨?_, fun hopen => ?_, fun hclosed => ?_⟩
  · cases side <;> simp [onMessageEvent, RelayPair.get, Side.other]
  · cases side <;>
      simp_all [onMessageEvent, sendTo, RelayPair.get, Side.other]
  · cases side <;>
      simp_all [onMessageEvent, sendTo, RelayPair.get, Side.other]

/-- C8 witness: on a concrete pair with an open server socket, a client
text message is appended verbatim to the server socket's sent list; on a
concrete pair whose server socket is closed, the same message leaves the
pair untouched. -/
theorem claim_C8_forwarding_witness :
    ((onMessageEvent
        { client := { readyState := .opened, sentClose := none, sent := [] }
          server := { readyState := .opened, sentClose := none, sent := [] } }
        .client (.text "hello")).get Side.client.other).sent = [.text "hello"] ∧
    onMessageEvent
        { client := { readyState := .opened, sentClose := none, sent := [] }
          server := { readyState := .closed, sentClose := none, sent := [] } }
        .client (.text "hello") =
      { client := { readyState := .opened, sentClose := none, sent := [] }
        server := { readyState := .closed, sentClose := none, sent := [] } } := by
  constructor
  · have h := (claim_C8_forwarding
      { client := { readyState := .opened, sentClose := none, sent := [] }
        server := { readyState := .opened, sentClose := none, sent := [] } }
      .client (.text "hello")).2.1 (by decide)
    simpa using h.1
  · exact (claim_C8_forwarding
      { client := { readyState := .opened, sentClose := none, sent := [] }
        server := { readyState := .closed, sentClose := none, sent := [] } }
      .client (.text "hello")).2.2 (by decide)

/-- C4 counterexample: an inbound request that carries an `Origin` header
with the empty value gets `Access-Control-Allow-Origin: *`, not the exact
`Origin` value it carried — the JS guard `if (requestOrigin)` treats the
empty string as falsy. -/
theorem claim_C4_counterexample :
    (let req : InboundRequest :=
      { method := "GET"
        url := { protocol := "http:", hostname := "127.0.0.1", port := "8080"
                 pathname := "/", search := "" }
        headers := [("Origin", "")], body := none }
     let r : UpstreamResponse := { status := 200, statusText := "OK", headers := [], body := none }
     hHas req.headers "Origin" = true ∧
     hGet (handleHttp req (.ok r)).headers "Access-Control-Allow-Origin" = some "*") ∧
    (some "*" : Option String) ≠ some "" := by
  exact ⟨⟨by decide, by decide⟩, by decide⟩

/-- C4 amended: for every HTTP response relayed from the upstream, if the
inbound request carried a non-empty `Origin` header then the response
carries `Access-Control-Allow-Origin` equal to that exact `Origin` value
and a `Vary: Origin` header; if the `Origin` header is absent — or present
with the empty value, which the code's truthiness test treats as absent —
the response carries `Access-Control-Allow-Origin: *`; and in all cases
the response carries `Access-Control-Allow-Credentials: true`. -/
theorem claim_C4_amended_cors (req : InboundRequest) (r : UpstreamResponse) :
    (∀ o, hGet req.headers "Origin" = some o → o ≠ "" →
      hGet (handleHttp req (.ok r)).headers "Access-Control-Allow-Origin" = some o ∧
      hGet (handleHttp req (.ok r)).headers "Vary" = some "Origin") ∧
    (hGet req.headers "Origin" = none →
      hGet (handleHttp req (.ok r)).headers "Access-Control-Allow-Origin" = some "*") ∧
    (hGet req.headers "Origin" = some "" →
      hGet (handleHttp req (.ok r)).headers "Access-Control-Allow-Origin" = some "*") ∧
    hGet (handleHttp req (.ok r)).headers "Access-Control-Allow-Credentials" =
      some "true" := by
  refine ⟨fun o ho he => ?_, fun ho => ?_, fun ho => ?_, ?_⟩
  · unfold handleHttp
    simp only [ho]
    rw [if_neg he]
    constructor
    · rw [hGet_hDelete_ne (by decide), hGet_hSet_ne (by decide), hGet_hSet_ne (by decide),
        hGet_hSet_self]
    · rw [hGet_hDelete_ne (by decide), hGet_hSet_ne (by decide), hGet_hSet_self]
  · unfold handleHttp
    simp only [ho]
    rw [hGet_hDelete_ne (by decide), hGet_hSet_ne (by decide), hGet_hSet_self]
  · unfold handleHttp
    simp only [ho]
    rw [if_pos trivial]
    rw [hGet_hDelete_ne (by decide), hGet_hSet_ne (by decide), hGet_hSet_self]
  · unfold handleHttp
    cases ho : hGet req.headers "Origin" with
    | none =>
      simp only [ho]
      rw [hGet_hDelete_ne (by decide), hGet_hSet_self]
    | some o =>
      by_cases he : o = ""
      · simp only [ho]
        rw [if_pos he]
        rw [hGet_hDelete_ne (by decide), hGet_hSet_self]
      · simp only [ho]
        rw [if_neg he]
        rw [hGet_hDelete_ne (by decide), hGet_hSet_self]

/-- C4 amended witness: a concrete request with `Origin:
https://app.example` relayed over a concrete upstream response gets that
origin reflected, `Vary: Origin`, and `Access-Control-Allow-Credentials:
true`; a concrete request without `Origin` gets the wildcard. -/
theorem claim_C4_amended_cors_witness :
    (hGet
        (handleHttp
          { method := "GET"
            url := { protocol := "http:", hostname := "127.0.0.1", port := ""
                     pathname := "/", search := "" }
            headers := [("Origin", "https://app.example")], body := none }
          (.ok { status := 200, statusText := "OK"
                 headers := [("Content-Type", "text/html")], body := none })).headers
        "Access-Control-Allow-Origin" = some "https://app.example" ∧
      hGet
        (handleHttp
          { method := "GET"
            url := { protocol := "http:", hostname := "127.0.0.1", port := ""
                     pathname := "/", search := "" }
            headers := [("Origin", "https://app.example")], body := none }
          (.ok { status := 200, statusText := "OK"
                 headers := [("Content-Type", "text/html")], body := none })).headers
        "Vary" = some "Origin") ∧
    hGet
        (handleHttp
          { method := "GET"
            url := { protocol := "http:", hostname := "127.0.0.1", port := ""
                     pathname := "/", search := "" }
            headers := [], body := none }
          (.ok { status := 200, statusText := "OK"
                 headers := [("Content-Type", "text/html")], body := none })).headers
        "Access-Control-Allow-Origin" = some "*" ∧
    hGet
        (handleHttp
          { method := "GET"
            url := { protocol := "http:", hostname := "127.0.0.1", port := ""
                     pathname := "/", search := "" }
            headers := [], body := none }
          (.ok { status := 200, statusText := "OK"
                 headers := [("Content-Type", "text/html")], body := none })).headers
        "Access-Control-Allow-Credentials" = some "true" := by
  refine ⟨?_, ?_, ?_⟩
  · exact (claim_C4_amended_cors
      { method := "GET"
        url := { protocol := "http:", hostname := "127.0.0.1", port := ""
                 pathname := "/", search := "" }
        headers := [("Origin", "https://app.example")], body := none }
      { status := 200, statusText := "OK"
        headers := [("Content-Type", "text/html")], body := none }).1
      "https://app.example" (by decide) (by decide)
  · exact (claim_C4_amended_cors
      { method := "GET"
        url := { protocol := "http:", hostname := "127.0.0.1", port := ""
                 pathname := "/", search := "" }
        headers := [], body := none }
      { status := 200, statusText := "OK"
        headers := [("Content-Type", "text/html")], body := none }).2.1 (by decide)
  · exact (claim_C4_amended_cors
      { method := "GET"
        url := { protocol := "http:", hostname := "127.0.0.1", port := ""
                 pathname := "/", search := "" }
        headers := [], body := none }
      { status := 200, statusText := "OK"
        headers := [("Content-Type", "text/html")], body := none }).2.2.2

/-- C6: for every 3xx redirect response from the upstream, the HTTP relay
does not follow the redirect: with `redirect: "manual"` its single `fetch`
issues exactly one upstream request, and the same status, status text and
`Location` header are returned to the caller.  Covers `handleHttp` in
src/openwebui.ts and `handler` in src/deepsearch.ts. -/
theorem claim_C6_redirect_not_followed (req : InboundRequest)
    (r : UpstreamResponse) (rest : List UpstreamResponse) (loc : String)
    (hs : redirectStatus r.status = true)
    (hl : hGet r.headers "Location" = some loc) :
    ((handleHttpNet req (r :: rest)).1.status = r.status ∧
      (handleHttpNet req (r :: rest)).1.statusText = r.statusText ∧
      hGet (handleHttpNet req (r :: rest)).1.headers "Location" = some loc ∧
      (handleHttpNet req (r :: rest)).2 = 1) ∧
    ((deepsearchHandlerNet req (r :: rest)).1.status = r.status ∧
      (deepsearchHandlerNet req (r :: rest)).1.statusText = r.statusText ∧
      hGet (deepsearchHandlerNet req (r :: rest)).1.headers "Location" = some loc ∧
      (deepsearchHandlerNet req (r :: rest)).2 = 1) := by
  have hnet : handleHttpNet req (r :: rest) = (handleHttp req (.ok r), 1) := rfl
  have hdnet : deepsearchHandlerNet req (r :: rest) = (deepsearchHandler req (.ok r), 1) := rfl
  refine ⟨?_, ?_⟩
  · rw [hnet]
    refine ⟨?_, ?_, ?_, rfl⟩
    · unfold handleHttp
      cases ho : hGet req.headers "Origin" with
      | none => simp [ho]
      | some o => by_cases he : o = "" <;> simp [ho, he]
    · unfold handleHttp
      cases ho : hGet req.headers "Origin" with
      | none => simp [ho]
      | some o => by_cases he : o = "" <;> simp [ho, he]
    · rw [handleHttp_get_preserved req r (by decide) (by decide) (by decide) (by decide)]
      exact hl
  · rw [hdnet]
    exact ⟨rfl, rfl, hl, rfl⟩

/-- C6 witness: a concrete upstream `302` with `Location: /x` is relayed by
both handlers as `302` with the same `Location`, with exactly one upstream
request issued. -/
theorem claim_C6_redirect_not_followed_witness :
    (handleHttpNet
        { method := "GET"
          url := { protocol := "http:", hostname := "127.0.0.1", port := ""
                   pathname := "/", search := "" }
          headers := [], body := none }
        [{ status := 302, statusText := "Found"
           headers := [("Location", "/x")], body := none }]).1.status = 302 ∧
    hGet
      (handleHttpNet
        { method := "GET"
          url := { protocol := "http:", hostname := "127.0.0.1", port := ""
                   pathname := "/", search := "" }
          headers := [], body := none }
        [{ status := 302, statusText := "Found"
           headers := [("Location", "/x")], body := none }]).1.headers
      "Location" = some "/x" ∧
    (handleHttpNet
        { method := "GET"
          url := { protocol := "http:", hostname := "127.0.0.1", port := ""
                   pathname := "/", search := "" }
          headers := [], body := none }
        [{ status := 302, statusText := "Found"
           headers := [("Location", "/x")], body := none }]).2 = 1 := by
  have h := (claim_C6_redirect_not_followed
    { method := "GET"
      url := { protocol := "http:", hostname := "127.0.0.1", port := ""
               pathname := "/", search := "" }
      headers := [], body := none }
    { status := 302, statusText := "Found"
      headers := [("Location", "/x")], body := none }
    [] "/x" (by decide) (by decide)).1
  exact ⟨h.1, h.2.2.1, h.2.2.2⟩

/-- C7: for every network-level failure contacting the upstream (the
`fetch` throws), both relays return a total 502 response — never a thrown
failure — whose body is a short non-empty human-readable message:
`"Proxy Error: " + error.message` in src/openwebui.ts and the fixed
message of src/deepsearch.ts. -/
theorem claim_C7_upstream_failure_502 (req : InboundRequest) (msg : String) :
    (handleHttp req (.err msg)).status = 502 ∧
    (∃ b, (handleHttp req (.err msg)).body = some b ∧ b ≠ "") ∧
    (deepsearchHandler req (.err msg)).status = 502 ∧
    (∃ b, (deepsearchHandler req (.err msg)).body = some b ∧ b ≠ "") := by
  refine ⟨rfl, ⟨"Proxy Error: " ++ msg, rfl, ?_⟩, rfl, ⟨"代理服务器出错", rfl, by decide⟩⟩
  intro hb
  have hd := congrArg String.data hb
  simp at hd

/-- C10 counterexample: an inbound request carrying an `Origin` header with
the empty value leaves the upstream's `Vary: Accept-Encoding` untouched
instead of setting `Vary: Origin` — the code's truthiness test sends the
empty value down the no-Origin branch. -/
theorem claim_C10_counterexample :
    (let req : InboundRequest :=
      { method := "GET"
        url := { protocol := "http:", hostname := "127.0.0.1", port := "8080"
                 pathname := "/", search := "" }
        headers := [("Origin", "")], body := none }
     let r : UpstreamResponse :=
      { status := 200, statusText := "OK"
        headers := [("Vary", "Accept-Encoding")], body := none }
     hHas req.headers "Origin" = true ∧
     hGet (handleHttp req (.ok r)).headers "Vary" = some "Accept-Encoding") ∧
    (some "Accept-Encoding" : Option String) ≠ some "Origin" := by
  exact ⟨⟨by decide, by decide⟩, by decide⟩

/-- C10 amended: when the inbound request carries a non-empty `Origin`
header, the HTTP relay sets the response's `Vary` header to exactly the
single value `"Origin"`, replacing any `Vary` value the upstream response
carried rather than appending to it; when the `Origin` header is absent —
or present with the empty value, which the code's truthiness test treats
as absent — the upstream's `Vary` header passes through unchanged. -/
theorem claim_C10_amended_vary (req : InboundRequest) (r : UpstreamResponse) :
    (∀ o, hGet req.headers "Origin" = some o → o ≠ "" →
      hGet (handleHttp req (.ok r)).headers "Vary" = some "Origin" ∧
      countKey (handleHttp req (.ok r)).headers "Vary" = 1) ∧
    (hGet req.headers "Origin" = none →
      hGet (handleHttp req (.ok r)).headers "Vary" = hGet r.headers "Vary" ∧
      countKey (handleHttp req (.ok r)).headers "Vary" = countKey r.headers "Vary") ∧
    (hGet req.headers "Origin" = some "" →
      hGet (handleHttp req (.ok r)).headers "Vary" = hGet r.headers "Vary" ∧
      countKey (handleHttp req (.ok r)).headers "Vary" = countKey r.headers "Vary") := by
  refine ⟨fun o ho he => ?_, fun ho => ?_, fun ho => ?_⟩
  · unfold handleHttp
    simp only [ho]
    rw [if_neg he]
    constructor
    · rw [hGet_hDelete_ne (by decide), hGet_hSet_ne (by decide), hGet_hSet_self]
    · rw [countKey_hDelete_ne (by decide), countKey_hSet_ne (by decide), countKey_hSet_self]
  · unfold handleHttp
    simp only [ho]
    constructor
    · rw [hGet_hDelete_ne (by decide), hGet_hSet_ne (by decide), hGet_hSet_ne (by decide)]
    · rw [countKey_hDelete_ne (by decide), countKey_hSet_ne (by decide),
        countKey_hSet_ne (by decide)]
  · unfold handleHttp
    simp only [ho]
    rw [if_pos trivial]
    constructor
    · rw [hGet_hDelete_ne (by decide), hGet_hSet_ne (by decide), hGet_hSet_ne (by decide)]
    · rw [countKey_hDelete_ne (by decide), countKey_hSet_ne (by decide),
        countKey_hSet_ne (by decide)]

/-- C10 amended witness: a concrete request with `Origin: https://a.example`
replaces a concrete upstream's two `Vary` entries by the single value
`Origin`; a concrete request without `Origin` lets `Vary: Accept-Encoding`
pass through. -/
theorem claim_C10_amended_vary_witness :
    (hGet
        (handleHttp
          { method := "GET"
            url := { protocol := "http:", hostname := "127.0.0.1", port := ""
                     pathname := "/", search := "" }
            headers := [("Origin", "https://a.example")], body := none }
          (.ok { status := 200, statusText := "OK"
                 headers := [("Vary", "Accept-Encoding"), ("vary", "User-Agent")]
                 body := none })).headers "Vary" = some "Origin" ∧
      countKey
        (handleHttp
          { method := "GET"
            url := { protocol := "http:", hostname := "127.0.0.1", port := ""
                     pathname := "/", search := "" }
            headers := [("Origin", "https://a.example")], body := none }
          (.ok { status := 200, statusText := "OK"
                 headers := [("Vary", "Accept-Encoding"), ("vary", "User-Agent")]
                 body := none })).headers "Vary" = 1) ∧
    hGet
        (handleHttp
          { method := "GET"
            url := { protocol := "http:", hostname := "127.0.0.1", port := ""
                     pathname := "/", search := "" }
            headers := [], body := none }
          (.ok { status := 200, statusText := "OK"
                 headers := [("Vary", "Accept-Encoding")], body := none })).headers
        "Vary" =
      hGet [("Vary", "Accept-Encoding")] "Vary" := by
  refine ⟨?_, ?_⟩
  · exact (claim_C10_amended_vary
      { method := "GET"
        url := { protocol := "http:", hostname := "127.0.0.1", port := ""
                 pathname := "/", search := "" }
        headers := [("Origin", "https://a.example")], body := none }
      { status := 200, statusText := "OK"
        headers := [("Vary", "Accept-Encoding"), ("vary", "User-Agent")]
        body := none }).1 "https://a.example" (by decide) (by decide)
  · exact ((claim_C10_amended_vary
      { method := "GET"
        url := { protocol := "http:", hostname := "127.0.0.1", port := ""
                 pathname := "/", search := "" }
        headers := [], body := none }
      { status := 200, statusText := "OK"
        headers := [("Vary", "Accept-Encoding")], body := none }).2.1 (by decide)).1

end DenoProxy
